import Mathlib

/-!
Verification development for the amplifier-vscode server core
(`amplifier_vscode_server`): the session state machine (`SessionRunner`),
the approval gate (`VSCodeApprovalSystem` + `approval_gate_hook`), the
streaming hook bridge (`register_streaming_hooks`) and the transport
routes (`routes/sessions.py`), shallowly embedded in Lean.

Conventions of the embedding:
- Python dicts with known string keys become structures with `Option`
  fields; `d.get(k, default)` becomes `Option.getD`.
- Python truthiness of strings (`if s:`) becomes `s ≠ ""`; truthiness of
  `None`-or-value becomes `Option` matching.
- Exceptions raised before any mutation become `Except.error` with the
  state unchanged.
- `asyncio` interleaving is modelled as a sequence of atomic operations
  (`Op`): each atomic segment of the Python coroutines between awaits
  that matter to the session state is one operation of a step function.
- Wall-clock time is not modelled; the approval timeout appears as the
  nondeterministic operation `Op.gateTimeout`, enabled exactly while the
  gate is awaiting an unresolved future.
-/

namespace Amplifier

/-! ## Streaming bridge (hooks/streaming_bridge.py) -/

/-- Usage payload of a `content_block:end` signal:
`usage.get("input_tokens", 0)` / `usage.get("output_tokens", 0)`. -/
structure Usage where
  input_tokens : Nat := 0
  output_tokens : Nat := 0
  deriving DecidableEq, Repr

/-- The `block` dict optionally attached to a `content_block:end` signal;
the handler reads keys `thinking`, `content`, `text`. -/
structure EndBlock where
  thinking : Option String := none
  content : Option String := none
  text : Option String := none
  deriving DecidableEq, Repr

/-- Python `a or b` for a string-valued `dict.get`: `None` and `""` are
falsy, anything else is returned as-is. -/
def pyOrStr (a : Option String) (b : String) : String :=
  match a with
  | some s => if s = "" then b else s
  | none => b

/-- The fallback extraction in `on_content_block_end`:
`block.get("thinking") or block.get("content") or block.get("text") or ""`. -/
def blockFallback (blk : EndBlock) : String :=
  pyOrStr blk.thinking (pyOrStr blk.content (pyOrStr blk.text ""))

/-- Engine content-block signals handled by the streaming bridge
(`content_block:start`, `content_block:delta`, `content_block:end`).
Field names follow the dict keys the handlers read. -/
inductive BlockSignal where
  | start (block_type : Option String) (block_index : Nat)
  | delta (delta_type : Option String) (text : String) (thinking : String)
      (index : Nat)
  | blockEnd (block_index : Nat) (total_blocks : Option Nat)
      (usage : Option Usage) (block : Option EndBlock)
  deriving DecidableEq, Repr

/-- Events the bridge sends to the display system, which forwards them to
the SSE queue (`content_block:delta` and `thinking:delta`). -/
inductive BridgeEvent where
  | contentDelta (text : String) (index : Nat)
  | thinkingDelta (delta : String)
  deriving DecidableEq, Repr

/-- The closure state of `register_streaming_hooks`: `thinking_state`
(`current_thinking`, `current_block_index`) and `token_state`
(`input_tokens`, `output_tokens`). -/
structure BridgeState where
  current_thinking : String := ""
  current_block_index : Option Nat := none
  input_tokens : Nat := 0
  output_tokens : Nat := 0
  deriving DecidableEq, Repr

/-- Python `is_last_block = block_index == total_blocks - 1 if total_blocks else False`:
falsy `total_blocks` (`None` or `0`) yields `false`. -/
def isLastBlock (block_index : Nat) (total_blocks : Option Nat) : Bool :=
  match total_blocks with
  | some t => if t = 0 then false else block_index == t - 1
  | none => false

/-- One content-block signal through the bridge handlers
(`on_content_block_start`, `on_content_block_delta`,
`on_content_block_end`), returning the updated closure state and the
display events emitted. -/
def bridgeStep (st : BridgeState) (sig : BlockSignal) :
    BridgeState × List BridgeEvent :=
  match sig with
  | .start block_type block_index =>
      if block_type = some "thinking" then
        ({ st with current_thinking := "", current_block_index := some block_index }, [])
      else (st, [])
  | .delta delta_type text thinking index =>
      if delta_type = some "text_delta" then
        if text ≠ "" then (st, [.contentDelta text index]) else (st, [])
      else if delta_type = some "thinking_delta" then
        if thinking ≠ "" then
          ({ st with current_thinking := st.current_thinking ++ thinking }, [])
        else (st, [])
      else (st, [])
  | .blockEnd block_index total_blocks usage block =>
      let is_last := isLastBlock block_index total_blocks
      let st1 :=
        match usage with
        | some u =>
            if is_last then
              { st with input_tokens := st.input_tokens + u.input_tokens,
                        output_tokens := st.output_tokens + u.output_tokens }
            else st
        | none => st
      if st1.current_block_index = some block_index then
        let thinking_content :=
          if st1.current_thinking = "" then blockFallback (block.getD {})
          else st1.current_thinking
        if thinking_content ≠ "" then
          ({ st1 with current_thinking := "", current_block_index := none },
           [.thinkingDelta thinking_content])
        else (st1, [])
      else (st1, [])

/-- Run the bridge over a list of signals, collecting all emitted
display events in order. -/
def bridgeRun (st : BridgeState) : List BlockSignal → BridgeState × List BridgeEvent
  | [] => (st, [])
  | sig :: sigs =>
      let r := bridgeStep st sig
      let rest := bridgeRun r.1 sigs
      (rest.1, r.2 ++ rest.2)

/-- How much a single signal is allowed to contribute to the cumulative
token counters, per the spec: only a block-end signal that is flagged
last and carries a usage payload contributes. -/
def usageDelta (sig : BlockSignal) : Nat × Nat :=
  match sig with
  | .blockEnd block_index total_blocks (some u) _ =>
      if isLastBlock block_index total_blocks then (u.input_tokens, u.output_tokens)
      else (0, 0)
  | _ => (0, 0)

/-- Sum of the per-signal contributions over a signal sequence. -/
def usageSum (sigs : List BlockSignal) : Nat × Nat :=
  sigs.foldr (fun sig acc => ((usageDelta sig).1 + acc.1, (usageDelta sig).2 + acc.2))
    (0, 0)

/-! ## Approval gate hook (hooks/approval_hook.py) -/

/-- The fixed confirmation-required set `APPROVAL_REQUIRED_TOOLS`. -/
def APPROVAL_REQUIRED_TOOLS : List String := ["write_file", "edit_file", "bash", "git"]

/-- Tool input dict as read by `_build_approval_prompt`; each field is a
`dict.get` target. -/
structure ToolInput where
  file_path : Option String := none
  content : Option String := none
  old_string : Option String := none
  new_string : Option String := none
  command : Option String := none
  operation : Option String := none
  deriving DecidableEq, Repr

/-- A single-quote character, used in the generated approval prompts. -/
def sq : String := "\x27"

/-- Definition `_build_approval_prompt(tool_name, input_data)`: the deterministic
human-readable prompt per tool. -/
def build_approval_prompt (tool_name : String) (input_data : ToolInput) : String :=
  if tool_name = "write_file" then
    let path := input_data.file_path.getD "file"
    let content_length := (input_data.content.getD "").length
    "Allow writing " ++ toString content_length ++ " characters to " ++ sq ++ path ++ sq ++ "?"
  else if tool_name = "edit_file" then
    let path := input_data.file_path.getD "file"
    let old_len := (input_data.old_string.getD "").length
    let new_len := (input_data.new_string.getD "").length
    "Allow editing " ++ sq ++ path ++ sq ++ " (replacing " ++ toString old_len ++
      " chars with " ++ toString new_len ++ " chars)?"
  else if tool_name = "bash" then
    let cmd := input_data.command.getD "command"
    let cmd := if cmd.length > 60 then cmd.take 57 ++ "..." else cmd
    "Allow running: " ++ cmd
  else if tool_name = "git" then
    let operation := input_data.operation.getD "operation"
    "Allow git " ++ operation ++ "?"
  else
    "Allow " ++ tool_name ++ " operation?"

/-- The hook directive (`HookResult`): either `action="continue"` or
`action="ask_user"` with the approval parameters. -/
inductive HookDirective where
  | cont
  | askUser (approval_prompt : String) (approval_options : List String)
      (approval_timeout : Nat) (approval_default : String)
  deriving DecidableEq, Repr

/-- Hook `approval_gate_hook(event, data)`: decides `continue` vs `ask_user`
from the tool name, the confirmation-required set and the per-session
sticky `always_allow_tools` flag. -/
def approval_gate_hook (tool_name : Option String) (tool_input : ToolInput)
    (always_allow_tools : Bool) : HookDirective :=
  match tool_name with
  | none => .cont
  | some t =>
      if t ∉ APPROVAL_REQUIRED_TOOLS then .cont
      else if always_allow_tools then .cont
      else .askUser (build_approval_prompt t tool_input)
        ["AlwaysAllow", "Allow", "Deny"] 300 "deny"

/-! ## Session state machine (core/session_runner.py, core/ux_systems.py)

The `SessionRunner` fields relevant to the claims, plus one piece of
ghost scheduling state:
- `gateWait` models the local view of the coroutine suspended inside
  `VSCodeApprovalSystem.request_approval` on `asyncio.wait_for`: it keeps
  a reference to the future (`resolution`) even after the runner fields
  are cleared, together with the request parameters it will use on the
  timeout path.
- `inFlight` records that a `prompt()` call is between its transition to
  `processing` and the engine returning (`self.session.execute`).
After `stop()` the session is deleted from the route registry
(`delete_session`), so no operation reaches it any more; the model makes
`stopped` absorbing. -/

/-- The `status` literal of `SessionRunner`. -/
inductive Status where
  | idle
  | processing
  | awaitingApproval
  | error
  | stopped
  deriving DecidableEq, Repr

/-- The `pending_approval` dict as stored by `request_approval`; the
`context` dict is kept as an opaque token. -/
structure PendingApproval where
  approval_id : String
  prompt : String
  options : List String
  context : Option String := none
  deriving DecidableEq, Repr

/-- Suspension record of the gate coroutine: the approval id and
configured default it captured, and the result of the shared future
(`resolution = none` while unresolved). -/
structure GateWait where
  approval_id : String
  timeout : Nat
  default : String
  resolution : Option String := none
  deriving DecidableEq, Repr

/-- The `SessionRunner` state (identity, profile and timestamps omitted:
they do not affect the dynamics). `approvalFutureSet` is whether
`self.approval_future` is non-`None`. -/
structure Session where
  status : Status := .idle
  message_count : Nat := 0
  input_tokens : Nat := 0
  output_tokens : Nat := 0
  pending_approval : Option PendingApproval := none
  approvalFutureSet : Bool := false
  always_allow_tools : Bool := false
  gateWait : Option GateWait := none
  inFlight : Bool := false
  deriving DecidableEq, Repr

/-- The session state right after a successful `start()`. -/
def initSession : Session := {}

/-- Events put on the SSE queue of the session (`_emit_event`), restricted to
the payload fields the claims mention. -/
inductive Event where
  | promptSubmit (prompt : String)
  | promptComplete (input_tokens output_tokens : Nat)
  | approvalRequired (approval_id prompt : String) (options : List String)
      (timeout : Nat) (default : String)
  | approvalGranted (approval_id decision : String)
  | approvalDenied (approval_id decision reason : String)
  | errorEvent (message : String)
  | sessionEnd
  deriving DecidableEq, Repr

/-- Errors raised by runner operations before/while mutating. -/
inductive RunnerError where
  | sessionBusy
  | noPendingApproval
  | noApprovalFuture
  deriving DecidableEq, Repr

/-- The prefix of `SessionRunner.prompt` up to invoking the engine:
raises unless `status == "idle"`; otherwise sets `processing`,
increments `message_count` and emits `prompt:submit`. Each emitted
event is paired with the status current at the moment of emission. -/
def promptStartFn (text : String) (s : Session) :
    Except RunnerError (Session × List (Status × Event)) :=
  if s.status ≠ .idle then .error .sessionBusy
  else
    .ok ({ s with status := .processing, message_count := s.message_count + 1,
                  inFlight := true },
         [(.processing, .promptSubmit text)])

/-- Method `VSCodeApprovalSystem.request_approval` up to its `await wait_for`:
creates a fresh future, stores the pending approval, sets status
`awaiting_approval` and emits `approval:required`. -/
def requestApprovalFn (approval_id prompt : String) (options : Option (List String))
    (timeout : Nat) (default : String) (context : Option String) (s : Session) :
    Session × List (Status × Event) :=
  let options := options.getD ["Allow", "Deny"]
  ({ s with approvalFutureSet := true,
            pending_approval := some ⟨approval_id, prompt, options, context⟩,
            status := .awaitingApproval,
            gateWait := some ⟨approval_id, timeout, default, none⟩ },
   [(.awaitingApproval, .approvalRequired approval_id prompt options timeout default)])

/-- Method `SessionRunner.resolve_approval(decision)`: raises if no pending
approval / no future; maps `"AlwaysAllow"` to the sticky flag plus
`"Allow"`; resolves the future; clears `pending_approval` and
`approval_future` together; restores `processing` if the status was
`awaiting_approval`. Emits nothing itself. -/
def resolve_approval (decision : String) (s : Session) : Except RunnerError Session :=
  if s.pending_approval.isNone then .error .noPendingApproval
  else if ¬ s.approvalFutureSet then .error .noApprovalFuture
  else
    .ok { s with
      always_allow_tools :=
        if decision = "AlwaysAllow" then true else s.always_allow_tools,
      gateWait := s.gateWait.map (fun g =>
        { g with
            resolution :=
              some (if decision = "AlwaysAllow" then "Allow" else decision) }),
      pending_approval := none,
      approvalFutureSet := false,
      status := if s.status = .awaitingApproval then .processing else s.status }

/-- The gate waking up because `wait_for` returned the resolved decision:
emits `approval:granted` and returns the decision to the engine. -/
def gateGrantedFn (s : Session) : Option (Session × List (Status × Event) × String) :=
  match s.gateWait with
  | some g =>
      match g.resolution with
      | some d => some ({ s with gateWait := none },
                        [(s.status, .approvalGranted g.approval_id d)], d)
      | none => none
  | none => none

/-- The `asyncio.TimeoutError` path of the gate: emits `approval:denied` with
the configured default and reason `"timeout"`, clears `pending_approval`
and `approval_future`, and returns the default to the engine. The
status is left untouched. -/
def gateTimeoutFn (s : Session) : Option (Session × List (Status × Event) × String) :=
  match s.gateWait with
  | some g =>
      if g.resolution.isNone then
        some ({ s with gateWait := none, pending_approval := none,
                       approvalFutureSet := false },
              [(s.status, .approvalDenied g.approval_id g.default "timeout")],
              g.default)
      else none
  | none => none

/-- The suffix of `SessionRunner.prompt` after the engine returns
successfully: reads the cumulative usage, emits `prompt:complete`
carrying it (status still whatever it currently is), then sets `idle`. -/
def promptCompleteFn (usage_in usage_out : Nat) (s : Session) :
    Session × List (Status × Event) :=
  ({ s with input_tokens := usage_in, output_tokens := usage_out,
            status := .idle, inFlight := false },
   [(s.status, .promptComplete usage_in usage_out)])

/-- The `except` branch of `SessionRunner.prompt`: sets `error`, emits
an `error` event, re-raises. -/
def promptErrorFn (message : String) (s : Session) : Session × List (Status × Event) :=
  ({ s with status := .error, inFlight := false },
   [(.error, .errorEvent message)])

/-- Method `SessionRunner.stop()` (success path): sets `stopped` and emits
`session:end`; pending approval state is deliberately not touched. -/
def stopFn (s : Session) : Session × List (Status × Event) :=
  ({ s with status := .stopped }, [(.stopped, .sessionEnd)])

/-- The atomic operations interleavable on one session. Engine-driven
operations (`toolIntent`, `gateGranted`, `gateTimeout`, `promptComplete`,
`promptError`) are only enabled while a prompt is in flight and — for
the first and the last two — while the gate is not suspended, since the
engine executes one tool intent at a time and is blocked inside
`request_approval` while the gate waits. -/
inductive Op where
  | promptStart (text : String)
  | toolIntent (tool_name : String) (tool_input : ToolInput)
  | resolveApproval (decision : String)
  | gateGranted
  | gateTimeout
  | promptComplete (usage_in usage_out : Nat)
  | promptError (message : String)
  | stop
  deriving DecidableEq, Repr

/-- The constant approval id `f"appr-{id(self)}"`: `id(self)` is the
address of the per-session approval system object, modelled as a fixed
token. -/
def approvalIdTok : String := "appr-self"

/-- One atomic operation on a session: the state change and the events
emitted, each tagged with the status at the moment of emission.
Operations whose enabling condition does not hold (an engine-driven
operation with no prompt in flight, a raise-before-mutation error path,
any operation on a stopped-and-deleted session) leave the state
unchanged and emit nothing. -/
def step (s : Session) (op : Op) : Session × List (Status × Event) :=
  if s.status = .stopped then (s, [])
  else
    match op with
    | .promptStart text =>
        match promptStartFn text s with
        | .ok r => r
        | .error _ => (s, [])
    | .toolIntent tool_name tool_input =>
        if s.inFlight ∧ s.gateWait = none then
          match approval_gate_hook (some tool_name) tool_input s.always_allow_tools with
          | .cont => (s, [])
          | .askUser prompt options timeout default =>
              requestApprovalFn approvalIdTok prompt (some options) timeout default
                (some tool_name) s
        else (s, [])
    | .resolveApproval decision =>
        match resolve_approval decision s with
        | .ok s1 => (s1, [])
        | .error _ => (s, [])
    | .gateGranted =>
        match gateGrantedFn s with
        | some r => (r.1, r.2.1)
        | none => (s, [])
    | .gateTimeout =>
        match gateTimeoutFn s with
        | some r => (r.1, r.2.1)
        | none => (s, [])
    | .promptComplete usage_in usage_out =>
        if s.inFlight ∧ s.gateWait = none then promptCompleteFn usage_in usage_out s
        else (s, [])
    | .promptError message =>
        if s.inFlight ∧ s.gateWait = none then promptErrorFn message s
        else (s, [])
    | .stop => stopFn s

/-- Run a sequence of operations, collecting the tagged event trace. -/
def run (s : Session) : List Op → Session × List (Status × Event)
  | [] => (s, [])
  | op :: ops =>
      let r := step s op
      let rest := run r.1 ops
      (rest.1, r.2 ++ rest.2)

/-- The sequence of statuses observed between operations. -/
def statusList (s : Session) : List Op → List Status
  | [] => [s.status]
  | op :: ops => s.status :: statusList (step s op).1 ops

/-- A chain of statuses in which every consecutive pair satisfies `ok`. -/
def chainOk (ok : Status → Status → Bool) : List Status → Bool
  | [] => true
  | [_] => true
  | a :: b :: rest => ok a b && chainOk ok (b :: rest)

/-- The transition relation claimed in spec §4.1:
`idle → processing → {idle, error}`, `processing → awaiting_approval →
processing`, any state `→ stopped`, any state `→ error`. -/
def claimedTransition : Status → Status → Bool
  | _, .stopped => true
  | _, .error => true
  | .idle, .processing => true
  | .processing, .idle => true
  | .processing, .awaitingApproval => true
  | .awaitingApproval, .processing => true
  | _, _ => false

/-- The transition relation the code actually follows: the claimed one
plus `awaiting_approval → idle`, taken when a prompt completes after
its approval timed out (the timeout path never restores `processing`). -/
def actualTransition : Status → Status → Bool
  | .awaitingApproval, .idle => true
  | a, b => claimedTransition a b

/-- Consecutive statuses equal (no transition) or related by a claimed
transition. -/
def claimedOk (a b : Status) : Bool := a == b || claimedTransition a b

/-- Consecutive statuses equal (no transition) or related by an actual
transition. -/
def actualOk (a b : Status) : Bool := a == b || actualTransition a b

/-- Does every `prompt:complete` event in the trace get emitted while
the status is `processing`? -/
def promptCompleteAtProcessing (tr : List (Status × Event)) : Bool :=
  tr.all fun p =>
    match p.2 with
    | .promptComplete _ _ => p.1 == .processing
    | _ => true

/-- Weakened form: every `prompt:complete` is emitted while the status
is `processing` or `awaiting_approval`. -/
def promptCompleteAtProcessingOrAwaiting (tr : List (Status × Event)) : Bool :=
  tr.all fun p =>
    match p.2 with
    | .promptComplete _ _ => p.1 == .processing || p.1 == .awaitingApproval
    | _ => true

/-! ## Transport routes (routes/sessions.py) -/

/-- Outcome of `POST /sessions/{id}/prompt`. `accepted` means a 200
response: the route schedules `runner.prompt` as a detached background
task (`asyncio.create_task`) and answers immediately. -/
inductive SubmitPromptResult where
  | notFound
  | sessionBusy
  | accepted
  deriving DecidableEq, Repr

/-- Route `submit_prompt`: 404 when the id is unknown, 409 `SESSION_BUSY` only
when `runner.status == "processing"`, otherwise accepted. -/
def submit_prompt (runner : Option Session) : SubmitPromptResult :=
  match runner with
  | none => .notFound
  | some r => if r.status = .processing then .sessionBusy else .accepted

/-- The `TokenUsage` response model. -/
structure TokenUsage where
  input_tokens : Nat
  output_tokens : Nat
  deriving DecidableEq, Repr

/-- The `SessionStatus` response model (identity, profile and timestamp
fields omitted). -/
structure SessionStatus where
  status : Status
  message_count : Nat
  token_usage : Option TokenUsage
  pending_approval : Option PendingApproval
  deriving DecidableEq, Repr

/-- Route `get_session_status`: `none` is the 404 path; `token_usage` is
populated only when `runner.input_tokens > 0`. -/
def get_session_status (runner : Option Session) : Option SessionStatus :=
  match runner with
  | none => none
  | some r =>
      some { status := r.status,
             message_count := r.message_count,
             token_usage :=
               if r.input_tokens > 0 then
                 some ⟨r.input_tokens, r.output_tokens⟩
               else none,
             pending_approval := r.pending_approval }

/-! ## Invariants and soundness of the step relation -/

/-- The inductive invariant of the session state machine:
(a) `pending_approval` is non-null iff `approval_future` is non-null;
(b) while the future field is set, the gate is suspended on that future
and it is unresolved; (c) the gate is only ever suspended during an
in-flight prompt; (d) an in-flight prompt keeps the status in
`processing` / `awaiting_approval` (or `stopped` after a forced stop). -/
def Inv (s : Session) : Prop :=
  s.pending_approval.isSome = s.approvalFutureSet ∧
  (s.approvalFutureSet = true → ∃ g, s.gateWait = some g ∧ g.resolution = none) ∧
  (s.gateWait.isSome = true → s.inFlight = true) ∧
  (s.inFlight = true →
    s.status = .processing ∨ s.status = .awaitingApproval ∨ s.status = .stopped)

lemma initSession_inv : Inv initSession := by
  refine ⟨rfl, ?_, ?_, ?_⟩ <;> intro hc <;> simp [initSession] at hc

/-- Field-level description of a successful `resolve_approval`. -/
lemma resolve_ok_spec (d : String) (s s' : Session)
    (h : resolve_approval d s = .ok s') :
    s'.pending_approval = none ∧ s'.approvalFutureSet = false ∧
    s'.gateWait = s.gateWait.map
      (fun g => { g with resolution := some (if d = "AlwaysAllow" then "Allow" else d) }) ∧
    s'.inFlight = s.inFlight ∧
    s'.status = (if s.status = .awaitingApproval then .processing else s.status) ∧
    s'.message_count = s.message_count ∧
    s'.input_tokens = s.input_tokens ∧ s'.output_tokens = s.output_tokens := by
  unfold resolve_approval at h
  by_cases hp : s.pending_approval.isNone
  · rw [if_pos hp] at h; cases h
  rw [if_neg hp] at h
  by_cases hf : s.approvalFutureSet = true
  · rw [if_neg (by simp [hf])] at h
    cases h
    exact ⟨rfl, rfl, rfl, rfl, rfl, rfl, rfl, rfl⟩
  · rw [if_pos (by simp at hf ⊢; exact hf)] at h; cases h

/-- One step preserves the invariant, performs only transitions of
`actualTransition`, and tags every `prompt:complete` event it emits with
status `processing` or `awaiting_approval`. -/
lemma step_sound (s : Session) (op : Op) (h : Inv s) :
    Inv (step s op).1 ∧
    (s.status == (step s op).1.status
      || actualTransition s.status (step s op).1.status) = true ∧
    promptCompleteAtProcessingOrAwaiting (step s op).2 = true := by
  obtain ⟨h1, h2, h3, h4⟩ := h
  by_cases hstop : s.status = .stopped
  · have hs : step s op = (s, []) := by simp [step, hstop]
    rw [hs]
    exact ⟨⟨h1, h2, h3, h4⟩, by simp, rfl⟩
  cases op with
  | promptStart text =>
      by_cases hidle : s.status = .idle
      · have hs : step s (.promptStart text) =
            ({ s with status := .processing, message_count := s.message_count + 1,
                      inFlight := true },
             [(.processing, .promptSubmit text)]) := by
          simp [step, hstop, promptStartFn, hidle]
        rw [hs]
        refine ⟨⟨h1, h2, fun _ => rfl, fun _ => Or.inl rfl⟩, ?_, rfl⟩
        rw [hidle]; rfl
      · have hs : step s (.promptStart text) = (s, []) := by
          simp [step, hstop, promptStartFn, hidle]
        rw [hs]
        exact ⟨⟨h1, h2, h3, h4⟩, by simp, rfl⟩
  | toolIntent tool_name tool_input =>
      by_cases hg : s.inFlight = true ∧ s.gateWait = none
      · cases hhook : approval_gate_hook (some tool_name) tool_input s.always_allow_tools with
        | cont =>
            have hs : step s (.toolIntent tool_name tool_input) = (s, []) := by
              simp [step, hstop, hg.1, hg.2, hhook]
            rw [hs]
            exact ⟨⟨h1, h2, h3, h4⟩, by simp, rfl⟩
        | askUser prompt options timeout default =>
            have hs : step s (.toolIntent tool_name tool_input) =
                ({ s with approvalFutureSet := true,
                          pending_approval :=
                            some ⟨approvalIdTok, prompt, options, some tool_name⟩,
                          status := .awaitingApproval,
                          gateWait := some ⟨approvalIdTok, timeout, default, none⟩ },
                 [(.awaitingApproval,
                   .approvalRequired approvalIdTok prompt options timeout default)]) := by
              simp [step, hstop, hg.1, hg.2, hhook, requestApprovalFn]
            rw [hs]
            refine ⟨⟨rfl, fun _ => ⟨_, rfl, rfl⟩, fun _ => hg.1, fun _ => Or.inr (Or.inl rfl)⟩,
              ?_, rfl⟩
            rcases h4 hg.1 with hst | hst | hst
            · rw [hst]; rfl
            · rw [hst]; rfl
            · exact absurd hst hstop
      · have hs : step s (.toolIntent tool_name tool_input) = (s, []) := by
          simp only [step, if_neg hstop]
          rw [if_neg hg]
        rw [hs]
        exact ⟨⟨h1, h2, h3, h4⟩, by simp, rfl⟩
  | resolveApproval decision =>
      cases hro : resolve_approval decision s with
      | error e =>
          have hs : step s (.resolveApproval decision) = (s, []) := by
            simp [step, hstop, hro]
          rw [hs]
          exact ⟨⟨h1, h2, h3, h4⟩, by simp, rfl⟩
      | ok s1 =>
          have hs : step s (.resolveApproval decision) = (s1, []) := by
            simp [step, hstop, hro]
          rw [hs]
          obtain ⟨hsp, hsf, hsg, hsi, hss, _, _, _⟩ := resolve_ok_spec decision s s1 hro
          refine ⟨⟨?_, ?_, ?_, ?_⟩, ?_, rfl⟩
          · rw [hsp, hsf]; rfl
          · intro hc; rw [hsf] at hc; cases hc
          · intro hc
            replace hc : s1.gateWait.isSome = true := hc
            show s1.inFlight = true
            rw [hsi]
            rw [hsg] at hc
            cases hgw : s.gateWait with
            | none => rw [hgw] at hc; cases hc
            | some g => exact h3 (by rw [hgw]; rfl)
          · intro hc
            rw [hsi] at hc
            rw [hss]
            rcases h4 hc with hst | hst | hst
            · rw [if_neg (by rw [hst]; intro hx; cases hx)]
              exact Or.inl hst
            · rw [if_pos hst]; exact Or.inl rfl
            · exact absurd hst hstop
          · rw [hss]
            by_cases hst : s.status = .awaitingApproval
            · rw [if_pos hst, hst]; rfl
            · rw [if_neg hst]; simp
  | gateGranted =>
      cases hgw : s.gateWait with
      | none =>
          have hs : step s .gateGranted = (s, []) := by
            simp [step, hstop, gateGrantedFn, hgw]
          rw [hs]
          exact ⟨⟨h1, h2, h3, h4⟩, by simp, rfl⟩
      | some g =>
          cases hres : g.resolution with
          | none =>
              have hs : step s .gateGranted = (s, []) := by
                simp [step, hstop, gateGrantedFn, hgw, hres]
              rw [hs]
              exact ⟨⟨h1, h2, h3, h4⟩, by simp, rfl⟩
          | some d =>
              have hs : step s .gateGranted =
                  ({ s with gateWait := none },
                   [(s.status, .approvalGranted g.approval_id d)]) := by
                simp [step, hstop, gateGrantedFn, hgw, hres]
              rw [hs]
              have hfut : s.approvalFutureSet = false := by
                by_contra hc
                obtain ⟨g', hg', hres'⟩ := h2 (by
                  cases hcase : s.approvalFutureSet
                  · exact absurd hcase hc
                  · rfl)
                rw [hgw] at hg'
                cases hg'
                rw [hres'] at hres
                cases hres
              refine ⟨⟨h1, ?_, ?_, h4⟩, by simp, rfl⟩
              · intro hc; rw [show ({ s with gateWait := none } : Session).approvalFutureSet
                    = s.approvalFutureSet from rfl, hfut] at hc; cases hc
              · intro hc; simp at hc
  | gateTimeout =>
      cases hgw : s.gateWait with
      | none =>
          have hs : step s .gateTimeout = (s, []) := by
            simp [step, hstop, gateTimeoutFn, hgw]
          rw [hs]
          exact ⟨⟨h1, h2, h3, h4⟩, by simp, rfl⟩
      | some g =>
          cases hres : g.resolution with
          | some d =>
              have hs : step s .gateTimeout = (s, []) := by
                simp [step, hstop, gateTimeoutFn, hgw, hres]
              rw [hs]
              exact ⟨⟨h1, h2, h3, h4⟩, by simp, rfl⟩
          | none =>
              have hs : step s .gateTimeout =
                  ({ s with gateWait := none, pending_approval := none,
                            approvalFutureSet := false },
                   [(s.status, .approvalDenied g.approval_id g.default "timeout")]) := by
                simp [step, hstop, gateTimeoutFn, hgw, hres]
              rw [hs]
              refine ⟨⟨rfl, ?_, ?_, h4⟩, by simp, rfl⟩
              · intro hc; cases hc
              · intro hc; simp at hc
  | promptComplete usage_in usage_out =>
      by_cases hg : s.inFlight = true ∧ s.gateWait = none
      · have hs : step s (.promptComplete usage_in usage_out) =
            ({ s with input_tokens := usage_in, output_tokens := usage_out,
                      status := .idle, inFlight := false },
             [(s.status, .promptComplete usage_in usage_out)]) := by
          simp [step, hstop, hg.1, hg.2, promptCompleteFn]
        rw [hs]
        have hsts := h4 hg.1
        refine ⟨⟨h1, h2, ?_, ?_⟩, ?_, ?_⟩
        · intro hc
          rw [show ({ s with
                        input_tokens := usage_in, output_tokens := usage_out,
                        status := Status.idle, inFlight := false } : Session).gateWait
                = s.gateWait from rfl, hg.2] at hc
          cases hc
        · intro hc; cases hc
        · rcases hsts with hst | hst | hst
          · rw [hst]; rfl
          · rw [hst]; rfl
          · exact absurd hst hstop
        · rcases hsts with hst | hst | hst
          · rw [hst]; rfl
          · rw [hst]; rfl
          · exact absurd hst hstop
      · have hs : step s (.promptComplete usage_in usage_out) = (s, []) := by
          simp only [step, if_neg hstop]
          rw [if_neg hg]
        rw [hs]
        exact ⟨⟨h1, h2, h3, h4⟩, by simp, rfl⟩
  | promptError message =>
      by_cases hg : s.inFlight = true ∧ s.gateWait = none
      · have hs : step s (.promptError message) =
            ({ s with status := .error, inFlight := false },
             [(.error, .errorEvent message)]) := by
          simp [step, hstop, hg.1, hg.2, promptErrorFn]
        rw [hs]
        refine ⟨⟨h1, h2, ?_, ?_⟩, ?_, rfl⟩
        · intro hc
          rw [show ({ s with
                        status := Status.error, inFlight := false } : Session).gateWait
                = s.gateWait from rfl, hg.2] at hc
          cases hc
        · intro hc; cases hc
        · cases s.status <;> rfl
      · have hs : step s (.promptError message) = (s, []) := by
          simp only [step, if_neg hstop]
          rw [if_neg hg]
        rw [hs]
        exact ⟨⟨h1, h2, h3, h4⟩, by simp, rfl⟩
  | stop =>
      have hs : step s .stop = ({ s with status := .stopped }, [(.stopped, .sessionEnd)]) := by
        simp [step, hstop, stopFn]
      rw [hs]
      refine ⟨⟨h1, h2, h3, fun _ => Or.inr (Or.inr rfl)⟩, ?_, rfl⟩
      cases s.status <;> rfl

lemma chainOk_cons (ok : Status → Status → Bool) (a : Status) (s' : Session)
    (ops : List Op) :
    chainOk ok (a :: statusList s' ops)
      = (ok a s'.status && chainOk ok (statusList s' ops)) := by
  cases ops <;> simp [statusList, chainOk]

/-- Every run from an invariant state keeps the invariant, only takes
`actualOk` transitions, and emits `prompt:complete` only at status
`processing` or `awaiting_approval`. -/
lemma run_sound (ops : List Op) (s : Session) (h : Inv s) :
    Inv (run s ops).1 ∧
    chainOk actualOk (statusList s ops) = true ∧
    promptCompleteAtProcessingOrAwaiting (run s ops).2 = true := by
  induction ops generalizing s with
  | nil => exact ⟨h, rfl, rfl⟩
  | cons op ops ih =>
      obtain ⟨hi, ht, he⟩ := step_sound s op h
      obtain ⟨ih1, ih2, ih3⟩ := ih (step s op).1 hi
      refine ⟨ih1, ?_, ?_⟩
      · show chainOk actualOk (s.status :: statusList (step s op).1 ops) = true
        rw [chainOk_cons, ih2, Bool.and_true]
        exact ht
      · show promptCompleteAtProcessingOrAwaiting
            ((step s op).2 ++ (run (step s op).1 ops).2) = true
        unfold promptCompleteAtProcessingOrAwaiting at he ih3 ⊢
        rw [List.all_append, he, ih3]
        rfl

/-! ## Claims -/

/-- The operation sequence exhibiting the approval-timeout path: a
prompt, a `write_file` intent the gate suspends, the approval timing
out, and the engine then finishing the prompt. -/
def timeoutDemoOps : List Op :=
  [ .promptStart "p",
    .toolIntent "write_file" { file_path := some "a.txt", content := some "hi" },
    .gateTimeout,
    .promptComplete 10 5 ]

/-- C1, counterexample: on the sequence prompt → approval request →
approval timeout → prompt completion, the status chain is
`idle, processing, awaiting_approval, awaiting_approval, idle`, whose
final change `awaiting_approval → idle` is not among the claimed
transitions, and `prompt:complete` is emitted while the status is
`awaiting_approval`, not `processing`: the timeout path of
`request_approval` clears the pending state but never restores
`status` to `processing`, so the claim as stated is false. -/
theorem c1_counterexample :
    chainOk claimedOk (statusList initSession timeoutDemoOps) = false ∧
    promptCompleteAtProcessing (run initSession timeoutDemoOps).2 = false := by
  constructor <;> rfl

/-- C1, amended: for every sequence of operations from a freshly started
session, the status follows the transitions of §4.1 **plus the extra
transition `awaiting_approval → idle`** (taken when a prompt completes
after its approval timed out), and every `prompt:complete` event is
emitted while the status is `processing` **or `awaiting_approval`** —
the latter exactly on the timed-out-approval path. -/
theorem c1_amended_state_machine (ops : List Op) :
    chainOk actualOk (statusList initSession ops) = true ∧
    promptCompleteAtProcessingOrAwaiting (run initSession ops).2 = true :=
  ⟨(run_sound ops initSession initSession_inv).2.1,
   (run_sound ops initSession initSession_inv).2.2⟩

/-- C1, amended, at a concrete input: the timeout demo run satisfies the
amended discipline. -/
theorem c1_amended_state_machine_witness :
    chainOk actualOk (statusList initSession timeoutDemoOps) = true ∧
    promptCompleteAtProcessingOrAwaiting (run initSession timeoutDemoOps).2 = true :=
  c1_amended_state_machine timeoutDemoOps

/-- C2: at every point between operations of any run from a freshly
started session, `pending_approval` is non-null iff `approval_future`
is non-null — every operation that sets or clears one of the pair sets
or clears the other in the same atomic step (`request_approval` sets
both before its first await, `resolve_approval` and the timeout path
clear both). At most one pending approval exists per session by
construction: the session holds a single optional record. -/
theorem c2_pending_iff_signal (ops : List Op) :
    (run initSession ops).1.pending_approval.isSome
      = (run initSession ops).1.approvalFutureSet :=
  (run_sound ops initSession initSession_inv).1.1

/-- C2 at a concrete input: after a prompt and a suspended `bash`
intent, both sides of the pair are set. -/
theorem c2_pending_iff_signal_witness :
    (run initSession
      [.promptStart "p", .toolIntent "bash" { command := some "ls" }]).1.pending_approval.isSome
      = (run initSession
      [.promptStart "p", .toolIntent "bash" { command := some "ls" }]).1.approvalFutureSet :=
  c2_pending_iff_signal [.promptStart "p", .toolIntent "bash" { command := some "ls" }]

lemma busy_prompt_noop (s : Session) (text : String) (h : s.status ≠ .idle) :
    promptStartFn text s = .error .sessionBusy ∧
    step s (.promptStart text) = (s, []) := by
  refine ⟨by simp [promptStartFn, h], ?_⟩
  by_cases hstop : s.status = .stopped
  · simp [step, hstop]
  · simp [step, hstop, promptStartFn, h]

/-- C3: submitting a prompt to a runner whose status is not `idle`
raises the busy error (`RuntimeError("Session is ..., cannot accept
prompt")`) before any mutation: no event is emitted and the whole
session state — status, `message_count`, token counters — is
unchanged. -/
theorem c3_busy_prompt_rejected (s : Session) (text : String) (h : s.status ≠ .idle) :
    promptStartFn text s = .error .sessionBusy ∧
    step s (.promptStart text) = (s, []) :=
  busy_prompt_noop s text h

/-- C3 at a concrete input: a `processing` session rejects a prompt
unchanged. -/
theorem c3_busy_prompt_rejected_witness :
    promptStartFn "again" { initSession with status := .processing } = .error .sessionBusy ∧
    step { initSession with status := .processing } (.promptStart "again")
      = ({ initSession with status := .processing }, []) :=
  c3_busy_prompt_rejected { initSession with status := .processing } "again" (by decide)

/-- Operations leading to a session suspended on an approval. -/
def awaitingDemoOps : List Op :=
  [ .promptStart "p",
    .toolIntent "write_file" { file_path := some "a.txt", content := some "hi" } ]

/-- The session state reached by `awaitingDemoOps`: status
`awaiting_approval`, one pending approval, gate suspended. -/
def pendingDemoSession : Session := (run initSession awaitingDemoOps).1

/-- C4, counterexample: `submit_prompt` rejects with 409 only when the
status is exactly `"processing"`. On a reachable session whose status
is `awaiting_approval`, the route accepts the prompt (returning a 200
"processing" response and spawning a background task) instead of
failing with the 409-equivalent busy error, so the claim as stated is
false. -/
theorem c4_counterexample :
    pendingDemoSession.status = .awaitingApproval ∧
    submit_prompt (some pendingDemoSession) = .accepted ∧
    submit_prompt (some pendingDemoSession) ≠ .sessionBusy := by
  refine ⟨rfl, rfl, ?_⟩
  intro hc
  cases hc

/-- C4, amended: the transport-level `submit_prompt` fails with the
409-equivalent `SESSION_BUSY` error exactly when the status of the session
is `"processing"`; for any other non-idle status (including
`awaiting_approval`) it accepts the request, and the `Runner.prompt`
call it schedules in the background then fails with the busy error
without emitting any event or changing the session state. -/
theorem c4_amended_busy_only_processing (s : Session) (text : String) :
    (submit_prompt (some s) = .sessionBusy ↔ s.status = .processing) ∧
    (s.status ≠ .idle → step s (.promptStart text) = (s, [])) := by
  constructor
  · unfold submit_prompt
    by_cases hp : s.status = .processing <;> simp [hp]
  · intro h
    exact (busy_prompt_noop s text h).2

/-- C4, amended, at concrete inputs: a `processing` session gets 409,
and for an `awaiting_approval` session the background prompt call is a
no-op. -/
theorem c4_amended_busy_only_processing_witness :
    submit_prompt (some { initSession with status := .processing }) = .sessionBusy ∧
    step { initSession with status := .awaitingApproval } (.promptStart "x")
      = ({ initSession with status := .awaitingApproval }, []) :=
  ⟨(c4_amended_busy_only_processing { initSession with status := .processing } "x").1.mpr rfl,
   (c4_amended_busy_only_processing { initSession with status := .awaitingApproval } "x").2
     (by decide)⟩

/-- C5: when the gate is suspended on an unresolved approval future and
the timeout fires, the gate returns the configured default decision to
the engine, emits `approval:denied` whose `decision` is that default
and whose `reason` is `"timeout"`, and clears `pending_approval` and
`approval_future` — all without `resolve_approval` having been called
(the operation is the `asyncio.TimeoutError` branch itself). -/
theorem c5_timeout_applies_default (s : Session) (g : GateWait)
    (hg : s.gateWait = some g) (hr : g.resolution = none) :
    gateTimeoutFn s =
      some ({ s with gateWait := none, pending_approval := none,
                     approvalFutureSet := false },
            [(s.status, .approvalDenied g.approval_id g.default "timeout")],
            g.default) := by
  simp [gateTimeoutFn, hg, hr]

/-- C5 at a concrete input: the reachable suspended session times out to
`approval:denied` with decision `"deny"`, reason `"timeout"`, and the
pending pair cleared. -/
theorem c5_timeout_applies_default_witness :
    gateTimeoutFn pendingDemoSession =
      some ({ pendingDemoSession with
                gateWait := none
                pending_approval := none
                approvalFutureSet := false },
            [(pendingDemoSession.status, .approvalDenied "appr-self" "deny" "timeout")],
            "deny") :=
  c5_timeout_applies_default pendingDemoSession ⟨"appr-self", 300, "deny", none⟩ rfl rfl

/-- C9: after a successful `resolve_approval` the pending record is
cleared, so a second `resolve_approval` raises
`ValueError("No pending approval")` (called `InvalidStateError` in the spec)
and leaves the session unchanged with no event; more generally
`resolve_approval` fails that way on any session with no pending
approval. -/
theorem c9_resolve_twice_fails (s s1 : Session) (d d2 : String)
    (h : resolve_approval d s = .ok s1) :
    resolve_approval d2 s1 = .error .noPendingApproval ∧
    step s1 (.resolveApproval d2) = (s1, []) ∧
    (∀ t : Session, t.pending_approval = none →
      resolve_approval d2 t = .error .noPendingApproval) := by
  obtain ⟨hsp, -, -, -, -, -, -, -⟩ := resolve_ok_spec d s s1 h
  have hgen : ∀ t : Session, t.pending_approval = none →
      resolve_approval d2 t = .error .noPendingApproval := by
    intro t ht
    unfold resolve_approval
    rw [if_pos (by rw [ht]; rfl)]
  refine ⟨hgen s1 hsp, ?_, hgen⟩
  by_cases hstop : s1.status = .stopped
  · simp [step, hstop]
  · simp [step, hstop, hgen s1 hsp]

/-- C9 at a concrete input: resolving the reachable suspended session
with `"Allow"` succeeds; resolving again with `"Deny"` fails with the
no-pending-approval error and changes nothing. -/
theorem c9_resolve_twice_fails_witness :
    resolve_approval "Deny"
      { pendingDemoSession with
          gateWait := some ⟨"appr-self", 300, "deny", some "Allow"⟩,
          pending_approval := none, approvalFutureSet := false,
          status := .processing }
      = .error .noPendingApproval ∧
    step { pendingDemoSession with
             gateWait := some ⟨"appr-self", 300, "deny", some "Allow"⟩,
             pending_approval := none, approvalFutureSet := false,
             status := .processing }
        (.resolveApproval "Deny")
      = ({ pendingDemoSession with
             gateWait := some ⟨"appr-self", 300, "deny", some "Allow"⟩,
             pending_approval := none, approvalFutureSet := false,
             status := .processing }, []) ∧
    (∀ t : Session, t.pending_approval = none →
      resolve_approval "Deny" t = .error .noPendingApproval) :=
  c9_resolve_twice_fails pendingDemoSession _ "Allow" "Deny" rfl

/-- C6: resolving a pending approval with `"AlwaysAllow"` sets the
sticky `always_allow_tools` flag, resolves the awaited future with
`"Allow"` (the decision delivered for this request), moves the status
from `awaiting_approval` back to `processing`, and the woken gate emits
`approval:granted` with `"Allow"`; afterwards the approval hook answers
`continue` for every confirmation-required tool when the sticky flag is
set, so a subsequent tool intent in the session emits no approval event
and changes nothing. -/
theorem c6_always_allow_sticky (s : Session) (g : GateWait)
    (hp : s.pending_approval.isSome = true) (hf : s.approvalFutureSet = true)
    (hst : s.status = .awaitingApproval) (hg : s.gateWait = some g) :
    resolve_approval "AlwaysAllow" s =
      .ok { s with
              always_allow_tools := true
              gateWait := some { g with resolution := some "Allow" }
              pending_approval := none
              approvalFutureSet := false
              status := .processing } ∧
    gateGrantedFn { s with
                      always_allow_tools := true
                      gateWait := some { g with resolution := some "Allow" }
                      pending_approval := none
                      approvalFutureSet := false
                      status := .processing } =
      some ({ s with
                always_allow_tools := true
                gateWait := none
                pending_approval := none
                approvalFutureSet := false
                status := .processing },
            [(.processing, .approvalGranted g.approval_id "Allow")], "Allow") ∧
    (∀ tool_name tool_input, tool_name ∈ APPROVAL_REQUIRED_TOOLS →
      approval_gate_hook (some tool_name) tool_input true = .cont) ∧
    (∀ s2 : Session, s2.always_allow_tools = true →
      ∀ tool_name tool_input,
        step s2 (.toolIntent tool_name tool_input) = (s2, [])) := by
  have hpn : s.pending_approval.isNone = false := by
    cases hpe : s.pending_approval
    · rw [hpe] at hp; cases hp
    · rfl
  have hcont : ∀ tool_name tool_input,
      approval_gate_hook (some tool_name) tool_input true = .cont := by
    intro tool_name tool_input
    by_cases hmem : tool_name ∈ APPROVAL_REQUIRED_TOOLS <;>
      simp [approval_gate_hook, hmem]
  refine ⟨?_, ?_, fun tn ti _ => hcont tn ti, ?_⟩
  · unfold resolve_approval
    rw [if_neg (by simp [hpn]), if_neg (by simp [hf]), hg, hst]
    rfl
  · rfl
  · intro s2 hall tool_name tool_input
    by_cases hstop : s2.status = .stopped
    · simp [step, hstop]
    · by_cases hguard : s2.inFlight = true ∧ s2.gateWait = none
      · simp [step, hstop, hguard.1, hguard.2, hall, hcont tool_name tool_input]
      · simp only [step, if_neg hstop]
        rw [if_neg hguard]

/-- C6 at a concrete input: on the reachable suspended session,
`"AlwaysAllow"` resolves to `"Allow"`, sets the sticky flag, restores
`processing`, and a later `write_file` intent is a silent no-op. -/
theorem c6_always_allow_sticky_witness :
    resolve_approval "AlwaysAllow" pendingDemoSession =
      .ok { pendingDemoSession with
              always_allow_tools := true
              gateWait := some ⟨"appr-self", 300, "deny", some "Allow"⟩
              pending_approval := none
              approvalFutureSet := false
              status := .processing } ∧
    gateGrantedFn { pendingDemoSession with
                      always_allow_tools := true
                      gateWait := some ⟨"appr-self", 300, "deny", some "Allow"⟩
                      pending_approval := none
                      approvalFutureSet := false
                      status := .processing } =
      some ({ pendingDemoSession with
                always_allow_tools := true
                gateWait := none
                pending_approval := none
                approvalFutureSet := false
                status := .processing },
            [(.processing, .approvalGranted "appr-self" "Allow")], "Allow") ∧
    (∀ tool_name tool_input, tool_name ∈ APPROVAL_REQUIRED_TOOLS →
      approval_gate_hook (some tool_name) tool_input true = .cont) ∧
    (∀ s2 : Session, s2.always_allow_tools = true →
      ∀ tool_name tool_input,
        step s2 (.toolIntent tool_name tool_input) = (s2, [])) :=
  c6_always_allow_sticky pendingDemoSession ⟨"appr-self", 300, "deny", none⟩
    rfl rfl rfl rfl

/-- C10: `get_session_status` reports `token_usage = null` whenever the
cumulative `input_tokens` is 0 — even when `output_tokens` is positive —
and carries the cumulative counters exactly when `input_tokens > 0`
(the route builds `TokenUsage` only under `runner.input_tokens > 0`). -/
theorem c10_usage_null_without_input (r : Session) :
    (r.input_tokens = 0 →
      get_session_status (some r) =
        some { status := r.status, message_count := r.message_count,
               token_usage := none, pending_approval := r.pending_approval }) ∧
    (∀ st, get_session_status (some r) = some st →
      (st.token_usage.isSome = true ↔ 0 < r.input_tokens)) := by
  constructor
  · intro h
    simp [get_session_status, h]
  · intro st hst
    unfold get_session_status at hst
    injection hst with hst
    subst hst
    by_cases h : 0 < r.input_tokens <;> simp [h]

/-- C10 at a concrete input: a session with `input_tokens = 0` and
`output_tokens = 7` still reports `token_usage = null`. -/
theorem c10_usage_null_without_input_witness :
    get_session_status (some { initSession with output_tokens := 7 }) =
      some { status := .idle, message_count := 0, token_usage := none,
             pending_approval := none } ∧
    (({ status := .idle, message_count := 0, token_usage := none,
        pending_approval := none } : SessionStatus).token_usage.isSome = true
      ↔ 0 < ({ initSession with output_tokens := 7 } : Session).input_tokens) :=
  ⟨(c10_usage_null_without_input { initSession with output_tokens := 7 }).1 rfl,
   (c10_usage_null_without_input { initSession with output_tokens := 7 }).2 _ rfl⟩

lemma bridgeStep_tokens (st : BridgeState) (sig : BlockSignal) :
    (bridgeStep st sig).1.input_tokens = st.input_tokens + (usageDelta sig).1 ∧
    (bridgeStep st sig).1.output_tokens = st.output_tokens + (usageDelta sig).2 := by
  cases sig with
  | start block_type block_index =>
      by_cases h : block_type = some "thinking" <;>
        simp [bridgeStep, usageDelta, h]
  | delta delta_type text thinking index =>
      simp only [bridgeStep, usageDelta]
      split_ifs <;> simp
  | blockEnd block_index total_blocks usage block =>
      cases usage with
      | none =>
          simp only [bridgeStep, usageDelta]
          split_ifs <;> simp
      | some u =>
          by_cases hlast : isLastBlock block_index total_blocks = true
          · simp only [bridgeStep, usageDelta, hlast]
            split_ifs <;> simp
          · have hlast' : isLastBlock block_index total_blocks = false :=
              Bool.eq_false_iff.mpr hlast
            simp only [bridgeStep, usageDelta, hlast']
            split_ifs <;> simp

/-- Cumulative token counters over any signal sequence grow by exactly
the sum of the contributions of the flagged-last, usage-carrying
block-end signals; every other signal leaves them unchanged. -/
lemma bridgeRun_tokens (sigs : List BlockSignal) (st : BridgeState) :
    (bridgeRun st sigs).1.input_tokens = st.input_tokens + (usageSum sigs).1 ∧
    (bridgeRun st sigs).1.output_tokens = st.output_tokens + (usageSum sigs).2 := by
  induction sigs generalizing st with
  | nil => simp [bridgeRun, usageSum]
  | cons sig sigs ih =>
      obtain ⟨h1, h2⟩ := bridgeStep_tokens st sig
      obtain ⟨ih1, ih2⟩ := ih (bridgeStep st sig).1
      constructor
      · show (bridgeRun (bridgeStep st sig).1 sigs).1.input_tokens
            = st.input_tokens + (usageSum (sig :: sigs)).1
        rw [ih1, h1]
        show st.input_tokens + (usageDelta sig).1 + (usageSum sigs).1
            = st.input_tokens + ((usageDelta sig).1 + (usageSum sigs).1)
        omega
      · show (bridgeRun (bridgeStep st sig).1 sigs).1.output_tokens
            = st.output_tokens + (usageSum (sig :: sigs)).2
        rw [ih2, h2]
        show st.output_tokens + (usageDelta sig).2 + (usageSum sigs).2
            = st.output_tokens + ((usageDelta sig).2 + (usageSum sigs).2)
        omega

/-- The double-count scenario of the spec: two block-end signals both
carrying `{input_tokens: 10, output_tokens: 5}`, of which only the
second is the last of the two blocks. -/
def tokenScenario : List BlockSignal :=
  [ .blockEnd 0 (some 2) (some ⟨10, 5⟩) none,
    .blockEnd 1 (some 2) (some ⟨10, 5⟩) none ]

/-- C7: over every signal sequence, the cumulative token accumulator is
incremented exactly by the block-end signals that are flagged as the
last block of the turn (`block_index == total_blocks - 1`) and carry a
usage payload; all other signals leave the counters unchanged. On the
concrete scenario of two end signals each carrying 10/5 with only the
second flagged last, cumulative usage rises by exactly 10/5, not
20/10. -/
theorem c7_usage_counted_once :
    (∀ (st : BridgeState) (sigs : List BlockSignal),
      (bridgeRun st sigs).1.input_tokens = st.input_tokens + (usageSum sigs).1 ∧
      (bridgeRun st sigs).1.output_tokens = st.output_tokens + (usageSum sigs).2) ∧
    (bridgeRun {} tokenScenario).1.input_tokens = 10 ∧
    (bridgeRun {} tokenScenario).1.output_tokens = 5 :=
  ⟨fun st sigs => bridgeRun_tokens sigs st, rfl, rfl⟩

/-- Concatenation, in order, of the streamed thinking deltas. -/
def concatDeltas (ds : List String) : String := ds.foldr (fun a b => a ++ b) ""

/-- A full reasoning block as delivered by the engine: a start signal
tagged `thinking` at `idx`, one `thinking_delta` signal per element of
`ds`, and the matching end signal at the same index (optionally
carrying inline `block` content). -/
def thinkingEpisode (idx : Nat) (ds : List String) (block : Option EndBlock) :
    List BlockSignal :=
  .start (some "thinking") idx ::
    (ds.map (fun d => .delta (some "thinking_delta") "" d idx)
      ++ [.blockEnd idx none none block])

lemma bridgeRun_cons (st : BridgeState) (sig : BlockSignal) (sigs : List BlockSignal) :
    bridgeRun st (sig :: sigs)
      = ((bridgeRun (bridgeStep st sig).1 sigs).1,
         (bridgeStep st sig).2 ++ (bridgeRun (bridgeStep st sig).1 sigs).2) := rfl

lemma bridgeRun_append (st : BridgeState) (l1 l2 : List BlockSignal) :
    bridgeRun st (l1 ++ l2)
      = ((bridgeRun (bridgeRun st l1).1 l2).1,
         (bridgeRun st l1).2 ++ (bridgeRun (bridgeRun st l1).1 l2).2) := by
  induction l1 generalizing st with
  | nil => simp [bridgeRun]
  | cons sig l1 ih =>
      simp only [List.cons_append, bridgeRun_cons, ih, List.append_assoc]

/-- Thinking deltas only accumulate: no events, text appended in
order. -/
lemma bridgeRun_thinking_deltas (idx : Nat) (ds : List String) (st : BridgeState) :
    bridgeRun st (ds.map fun d => .delta (some "thinking_delta") "" d idx)
      = ({ st with current_thinking := st.current_thinking ++ concatDeltas ds }, []) := by
  induction ds generalizing st with
  | nil => simp [bridgeRun, concatDeltas]
  | cons d ds ih =>
      have hstep : bridgeStep st (.delta (some "thinking_delta") "" d idx)
          = ({ st with current_thinking := st.current_thinking ++ d }, []) := by
        by_cases hd : d = ""
        · subst hd; simp [bridgeStep]
        · simp [bridgeStep, hd]
      rw [List.map_cons, bridgeRun_cons, hstep]
      rw [ih]
      simp [concatDeltas, String.append_assoc]

/-- C8: a reasoning block delivered as start(idx), thinking deltas, and
the matching end(idx) produces exactly one `thinking:delta` event whose
payload is the in-order concatenation of the deltas, and the
accumulator is reset afterwards (`current_thinking := ""`,
`current_block_index := None`); when no delta text accumulated but the
end signal carries inline block content, that content is emitted
instead. -/
theorem c8_thinking_single_flush (st : BridgeState) (idx : Nat) (ds : List String)
    (block : Option EndBlock) :
    (concatDeltas ds ≠ "" →
      bridgeRun st (thinkingEpisode idx ds block)
        = ({ st with current_thinking := "", current_block_index := none },
           [.thinkingDelta (concatDeltas ds)])) ∧
    (concatDeltas ds = "" → blockFallback (block.getD {}) ≠ "" →
      bridgeRun st (thinkingEpisode idx ds block)
        = ({ st with current_thinking := "", current_block_index := none },
           [.thinkingDelta (blockFallback (block.getD {}))])) := by
  have hstart : bridgeStep st (.start (some "thinking") idx)
      = ({ st with current_thinking := "", current_block_index := some idx }, []) := by
    simp [bridgeStep]
  have hmid : bridgeRun
        { st with current_thinking := "", current_block_index := some idx }
        (ds.map fun d => .delta (some "thinking_delta") "" d idx)
      = ({ st with current_thinking := concatDeltas ds,
                   current_block_index := some idx }, []) := by
    rw [bridgeRun_thinking_deltas]
    simp
  have hrun : bridgeRun st (thinkingEpisode idx ds block)
      = ((bridgeRun { st with current_thinking := concatDeltas ds,
                              current_block_index := some idx }
            [.blockEnd idx none none block]).1,
         (bridgeRun { st with current_thinking := concatDeltas ds,
                              current_block_index := some idx }
            [.blockEnd idx none none block]).2) := by
    rw [thinkingEpisode, bridgeRun_cons, hstart, bridgeRun_append, hmid]
    simp
  constructor
  · intro hne
    rw [hrun]
    have hend : bridgeStep
          { st with current_thinking := concatDeltas ds,
                    current_block_index := some idx }
          (.blockEnd idx none none block)
        = ({ st with current_thinking := "", current_block_index := none },
           [.thinkingDelta (concatDeltas ds)]) := by
      simp [bridgeStep, isLastBlock, hne]
    rw [bridgeRun_cons, hend]
    simp [bridgeRun]
  · intro hemp hfb
    rw [hrun]
    have hend : bridgeStep
          { st with current_thinking := concatDeltas ds,
                    current_block_index := some idx }
          (.blockEnd idx none none block)
        = ({ st with current_thinking := "", current_block_index := none },
           [.thinkingDelta (blockFallback (block.getD {}))]) := by
      simp [bridgeStep, isLastBlock, hemp, hfb]
    rw [bridgeRun_cons, hend]
    simp [bridgeRun]

/-- C8 at the concrete input of the spec: start(index=2) → delta("foo") →
delta("bar") → end(index=2) yields exactly one `thinking:delta` event
with payload `"foobar"`, and the accumulator is reset. -/
theorem c8_thinking_single_flush_witness :
    bridgeRun {} (thinkingEpisode 2 ["foo", "bar"] none)
      = ({ current_thinking := "", current_block_index := none,
           input_tokens := 0, output_tokens := 0 },
         [.thinkingDelta "foobar"]) :=
  (c8_thinking_single_flush {} 2 ["foo", "bar"] none).1 (by decide)

end Amplifier
